import Mathlib

/-!
Shallow embedding of scripts/harvest_python_fixtures.py, a command-line
utility that selects named fixture-harvest scenarios from a static registry,
dynamically loads each implementation, and invokes it once with a computed
output path.

Modelling conventions:
  - filesystem paths are lists of path components (`PyPath`); joining a path
    with a file name appends one component, and `Path.parent` drops the last
    component;
  - the effects of the script (sys.path mutation, mkdir, print, invoking a
    handler) are recorded as an ordered trace of `Event` values;
  - the outside world (os.path existence, Path.resolve, importlib, getattr,
    the behaviour of the loaded handler) is an explicit `Env` record;
  - `raise SystemExit(msg)` is `Except.error msg`; normal return is
    `Except.ok`.
-/

namespace Harvest

/-- A filesystem path, as its list of components. -/
abbrev PyPath := List String

/-- Renders a path the way Python str(Path) does, joining components. -/
def pathToString (p : PyPath) : String := String.intercalate "/" p

/-- Translation of Python str.join with separator ", " (used for the
unknown-scenario error message). -/
def commaJoin : List String → String
  | [] => ""
  | [x] => x
  | x :: y :: xs => x ++ ", " ++ commaJoin (y :: xs)

/-- The dataclass Scenario of the script: name, module, entry-point
function name (defaulting to "record"), and description. -/
structure Scenario where
  name : String
  module : String
  function : String := "record"
  description : String := ""
deriving DecidableEq, Repr

/-- The static registry SCENARIOS of the script, in registration order. -/
def SCENARIOS : List Scenario := [
  { name := "thread_basic",
    module := "harvest_scenarios.thread_basic",
    description := "Simple thread start + single turn execution." },
  { name := "thread_with_tool_retry",
    module := "harvest_scenarios.thread_with_tool_retry",
    description := "Thread that exercises tool invocation and auto-run retry loop." },
  { name := "structured_output_success",
    module := "harvest_scenarios.structured_output_success",
    description := "Structured output with valid JSON payload." },
  { name := "sandbox_approval_denied",
    module := "harvest_scenarios.sandbox_approval_denied",
    description := "Approval workflow where a command is denied." }]

/-- The dict comprehension building lookup in select_scenarios: name to
descriptor, with later registry entries winning on a duplicate key, exactly
as Python dict construction does. -/
def lookupScenario (name : String) : Option Scenario :=
  SCENARIOS.foldl (fun acc s => if s.name == name then some s else acc) none

/-- Translation of select_scenarios: an empty request yields the whole
registry; otherwise every unknown requested name is collected and reported
at once via SystemExit, and on success each requested name is mapped to its
descriptor in request order. -/
def select_scenarios (requested : List String) : Except String (List Scenario) :=
  if requested.isEmpty then
    Except.ok SCENARIOS
  else
    let unknown := requested.filter (fun name => (lookupScenario name).isNone)
    if unknown.isEmpty then
      Except.ok (requested.filterMap lookupScenario)
    else
      Except.error ("Unknown scenario(s): " ++ commaJoin unknown)

/-- One observable effect of the script, in the order performed. Each print
site of the script is its own constructor carrying the data interpolated
into the printed line; a call event records the module, the function name,
and the keyword arguments output_path and (when present) codex_path. -/
inductive Event where
  | sysPathSet : List PyPath → Event
  | mkdir : PyPath → Event
  | printRunning : String → PyPath → Event
  | printCompleted : Event
  | call : String → String → PyPath → Option PyPath → Event
deriving DecidableEq, Repr

/-- Recognises the handler-invocation event. -/
def Event.isCall : Event → Bool
  | Event.call _ _ _ _ => true
  | _ => false

/-- The external world the script runs against: the initial sys.path, path
existence and Path.resolve on the filesystem, importlib.import_module
(which either loads the named module or raises), getattr presence of a
function in a loaded module, and the behaviour of the resolved handler when
invoked (which may raise). -/
structure Env where
  sysPath : List PyPath
  pathExists : PyPath → Bool
  resolve : PyPath → PyPath
  importModule : String → Except String Unit
  hasAttr : String → String → Bool
  callHandler : String → String → PyPath → Option PyPath → Except String Unit

/-- Translation of ensure_python_path: a missing SDK path or one that does
not exist on disk raises SystemExit; otherwise the resolved path is
inserted at position 0 of sys.path and the updated sys.path is returned.
Python Path objects are always truthy, so the falsy check fires exactly
when the argument is None. -/
def ensure_python_path (env : Env) (python_sdk : Option PyPath) (sysPath : List PyPath) :
    Except String (List PyPath) :=
  match python_sdk with
  | none =>
      Except.error
        "Path to the Python SDK is required. Pass --python-sdk or set CODEX_PYTHON_SDK_PATH."
  | some p =>
      if env.pathExists p then
        Except.ok (env.resolve p :: sysPath)
      else
        Except.error ("Python SDK path does not exist: " ++ pathToString p)

/-- Translation of run_scenario: import the module (propagating a load
failure), resolve the entry point via getattr (raising SystemExit naming
the scenario, the function and the module when absent), create the output
directory and the parent of the output path, print the progress line, and
invoke the handler with output_path and, only when codex_path is truthy,
the codex_path keyword. The returned trace lists the effects performed in
order; the second component is the outcome. -/
def run_scenario (env : Env) (scenario : Scenario) (output_dir : PyPath)
    (codex_path : Option PyPath) : List Event × Except String Unit :=
  match env.importModule scenario.module with
  | Except.error e => ([], Except.error e)
  | Except.ok _ =>
      if env.hasAttr scenario.module scenario.function then
        let output_path := output_dir ++ [scenario.name ++ ".jsonl"]
        let kwargs : Option PyPath := codex_path
        let pre := [Event.mkdir output_dir,
                    Event.mkdir output_path.dropLast,
                    Event.printRunning scenario.name output_path,
                    Event.call scenario.module scenario.function output_path kwargs]
        match env.callHandler scenario.module scenario.function output_path kwargs with
        | Except.ok _ => (pre, Except.ok ())
        | Except.error e => (pre, Except.error e)
      else
        ([], Except.error ("Scenario " ++ scenario.name ++ " expected function "
          ++ scenario.function ++ " in module " ++ scenario.module))

/-- The for-loop of main: run each selected scenario in order, stopping at
the first failure; traces of the completed runs are concatenated. -/
def runList (env : Env) (out : PyPath) (cx : Option PyPath) :
    List Scenario → List Event × Except String Unit
  | [] => ([], Except.ok ())
  | s :: rest =>
      let r := run_scenario env s out cx
      match r.2 with
      | Except.error e => (r.1, Except.error e)
      | Except.ok _ =>
          let r2 := runList env out cx rest
          (r.1 ++ r2.1, r2.2)

/-- The parsed command-line arguments of the script. python_sdk is None
exactly when the flag is omitted and the environment variable is unset. -/
structure Args where
  python_sdk : Option PyPath
  output : PyPath
  codex_path : Option PyPath
  scenarios : List String

/-- Translation of main: validate and install the SDK path, resolve the
output directory, select the scenarios, run them in order, and print the
completion line only when every run succeeded. -/
def main (env : Env) (args : Args) : List Event × Except String Unit :=
  match ensure_python_path env args.python_sdk env.sysPath with
  | Except.error e => ([], Except.error e)
  | Except.ok newSysPath =>
      let output_dir := env.resolve args.output
      match select_scenarios args.scenarios with
      | Except.error e => ([Event.sysPathSet newSysPath], Except.error e)
      | Except.ok scenarios =>
          let r := runList env output_dir args.codex_path scenarios
          match r.2 with
          | Except.error e => (Event.sysPathSet newSysPath :: r.1, Except.error e)
          | Except.ok _ =>
              (Event.sysPathSet newSysPath :: r.1 ++ [Event.printCompleted],
               Except.ok ())

/-- The directory itself together with every ancestor directory, as created
by Path.mkdir with parents=True. -/
def dirAncestors (p : PyPath) : List PyPath :=
  (List.range (p.length + 1)).map (fun i => List.take i p)

/-- Adds a directory to the set of existing directories when absent. -/
def insertDir (fs : List PyPath) (d : PyPath) : List PyPath :=
  if d ∈ fs then fs else fs ++ [d]

/-- Semantics of Path.mkdir with parents=True and exist_ok=True over an
abstract filesystem (the list of existing directories): every ancestor and
the directory itself come to exist, and nothing fails. -/
def mkdirp (fs : List PyPath) (p : PyPath) : List PyPath :=
  (dirAncestors p).foldl insertDir fs

/-- Effect of one event on the abstract filesystem. -/
def applyEvent (fs : List PyPath) : Event → List PyPath
  | Event.mkdir p => mkdirp fs p
  | _ => fs

/-- Effect of a trace on the abstract filesystem. -/
def applyTrace (fs : List PyPath) (evs : List Event) : List PyPath :=
  evs.foldl applyEvent fs

/-- Whether a run outcome is a success. -/
def exceptOk : Except String Unit → Bool
  | Except.ok _ => true
  | Except.error _ => false

/-- Whether running one scenario under env succeeds. -/
def scenarioOk (env : Env) (s : Scenario) (out : PyPath) (cx : Option PyPath) : Bool :=
  exceptOk (run_scenario env s out cx).2

/-- A string occurs verbatim inside another. -/
def strContains (s sub : String) : Prop := ∃ a b, s = a ++ sub ++ b

/-- Sample environment in which every external operation succeeds. -/
def envAllOk : Env :=
  { sysPath := []
    pathExists := fun _ => true
    resolve := fun p => p
    importModule := fun _ => Except.ok ()
    hasAttr := fun _ _ => true
    callHandler := fun _ _ _ _ => Except.ok () }

/-- Sample environment whose loaded modules lack every attribute. -/
def envNoAttr : Env := { envAllOk with hasAttr := fun _ _ => false }

/-- Sample environment in which module import always fails. -/
def envImportFail : Env :=
  { envAllOk with importModule := fun m => Except.error ("No module named " ++ m) }

/-- Sample environment whose handlers raise when invoked. -/
def envCallFail : Env :=
  { envAllOk with callHandler := fun _ _ _ _ => Except.error "scenario failure" }

/-- Sample environment in which no filesystem path exists. -/
def envNoPath : Env := { envAllOk with pathExists := fun _ => false }

/-- Sample scenario descriptor (the first registry entry, restated). -/
def scenario0 : Scenario :=
  { name := "thread_basic", module := "harvest_scenarios.thread_basic" }

/-- Sample parsed arguments with a valid SDK path and empty request. -/
def argsAll : Args :=
  { python_sdk := some ["sdk"], output := ["out"], codex_path := none, scenarios := [] }

/-- Sample parsed arguments requesting an unknown scenario name. -/
def argsBad : Args :=
  { python_sdk := some ["sdk"], output := ["out"], codex_path := none, scenarios := ["nope"] }

/-! Helper lemmas about the registry lookup and selection. -/

lemma lookupScenario_name {n : String} {s : Scenario} (h : lookupScenario n = some s) :
    s.name = n := by
  simp only [lookupScenario, SCENARIOS, List.foldl] at h
  repeat' split at h
  all_goals simp_all
  all_goals (cases h; rfl)

lemma filterMap_all_isSome {α β : Type} (f : α → Option β) :
    ∀ l : List α, (∀ x ∈ l, (f x).isSome = true) →
      (l.filterMap f).length = l.length ∧ ∀ i : Nat, (l.filterMap f)[i]? = (l[i]?).bind f := by
  intro l
  induction l with
  | nil =>
      intro _
      refine ⟨rfl, ?_⟩
      intro i
      simp
  | cons a t ih =>
      intro hall
      have ha : (f a).isSome = true := hall a (List.mem_cons_self a t)
      obtain ⟨b, hb⟩ := Option.isSome_iff_exists.mp ha
      have ht := ih (fun x hx => hall x (List.mem_cons_of_mem a hx))
      refine ⟨?_, ?_⟩
      · simp [List.filterMap_cons, hb, ht.1]
      · intro i
        cases i with
        | zero => simp [List.filterMap_cons, hb]
        | succ j => simp [List.filterMap_cons, hb, ht.2 j]

/-! Claim theorems. -/

/-- Claim C1: for every non-empty requested-name list whose names all occur
in the registry, select_scenarios succeeds and returns exactly one
descriptor per requested name, in the requested order (pointwise, the i-th
result is the registry descriptor of the i-th requested name, so the length
matches and duplicates are preserved). -/
theorem selector_requested_order (req : List String) (hne : req ≠ [])
    (hall : ∀ n ∈ req, (lookupScenario n).isSome = true) :
    ∃ scns, select_scenarios req = Except.ok scns ∧
      scns.length = req.length ∧
      (∀ i : Nat, scns[i]? = (req[i]?).bind lookupScenario) ∧
      (∀ i : Nat, ∀ s, scns[i]? = some s → req[i]? = some s.name) := by
  have hpt := filterMap_all_isSome lookupScenario req hall
  refine ⟨req.filterMap lookupScenario, ?_, hpt.1, hpt.2, ?_⟩
  · have hemp : req.isEmpty = false := by
      cases req with
      | nil => exact absurd rfl hne
      | cons a t => rfl
    have hunk : req.filter (fun name => (lookupScenario name).isNone) = [] := by
      refine List.filter_eq_nil_iff.mpr ?_
      intro n hn
      obtain ⟨a, ha⟩ := Option.isSome_iff_exists.mp (hall n hn)
      simp [ha]
    simp [select_scenarios, hemp, hunk]
  · intro i s hs
    have := hpt.2 i
    rw [hs] at this
    cases hreq : req[i]? with
    | none => rw [hreq] at this; simp at this
    | some n =>
        rw [hreq] at this
        simp only [Option.some_bind] at this
        rw [lookupScenario_name this.symm]

/-- Witness for C1 at the concrete request list
structured_output_success, thread_basic, thread_basic. -/
theorem selector_requested_order_witness :
    ∃ scns,
      select_scenarios ["structured_output_success", "thread_basic", "thread_basic"]
          = Except.ok scns ∧
      scns.length = ["structured_output_success", "thread_basic", "thread_basic"].length ∧
      (∀ i : Nat, scns[i]? =
        (["structured_output_success", "thread_basic", "thread_basic"][i]?).bind
          lookupScenario) ∧
      (∀ i : Nat, ∀ s, scns[i]? = some s →
        ["structured_output_success", "thread_basic", "thread_basic"][i]? = some s.name) :=
  selector_requested_order _ (by decide) (by decide)

/-- Claim C2: for the empty request list, select_scenarios returns the full
registry in registration order, whose length is the registry size 4. -/
theorem selector_empty_request :
    select_scenarios [] = Except.ok SCENARIOS ∧ SCENARIOS.length = 4 :=
  ⟨rfl, rfl⟩

lemma strContains_commaJoin {n : String} : ∀ {l : List String}, n ∈ l →
    strContains (commaJoin l) n := by
  intro l
  induction l with
  | nil => intro h; cases h
  | cons x t ih =>
      intro h
      cases t with
      | nil =>
          have hx : n = x := by
            cases h with
            | head => rfl
            | tail _ hmem => cases hmem
          refine ⟨"", "", ?_⟩
          simp [commaJoin, hx]
      | cons y ys =>
          cases h with
          | head =>
              refine ⟨"", ", " ++ commaJoin (y :: ys), ?_⟩
              simp [commaJoin, String.append_assoc]
          | tail _ hmem =>
              obtain ⟨a, b, hab⟩ := ih hmem
              refine ⟨x ++ ", " ++ a, b, ?_⟩
              simp [commaJoin, hab, String.append_assoc]

lemma strContains_append_left (pre : String) {s sub : String} (h : strContains s sub) :
    strContains (pre ++ s) sub := by
  obtain ⟨a, b, hab⟩ := h
  exact ⟨pre ++ a, b, by simp [hab, String.append_assoc]⟩

/-- Claim C3: for any request list with at least one name absent from the
registry, select_scenarios fails, the error message contains every absent
requested name, and main raises that error without ever invoking a
scenario entry point (its trace contains no call event). -/
theorem selector_unknown_aborts (req : List String)
    (h : ∃ n ∈ req, lookupScenario n = none) :
    ∃ msg, select_scenarios req = Except.error msg ∧
      (∀ n ∈ req, lookupScenario n = none → strContains msg n) ∧
      (∀ env : Env, ∀ args : Args, args.scenarios = req →
        (∀ ev ∈ (main env args).1, ev.isCall = false) ∧
        (∃ e, (main env args).2 = Except.error e) ∧
        (∀ sp, ensure_python_path env args.python_sdk env.sysPath = Except.ok sp →
          (main env args).2 = Except.error msg)) := by
  obtain ⟨n0, hn0, habs0⟩ := h
  have hmem0 : n0 ∈ req.filter (fun name => (lookupScenario name).isNone) :=
    List.mem_filter.mpr ⟨hn0, by simp [habs0]⟩
  have hemp : req.isEmpty = false := by
    cases req with
    | nil => cases hn0
    | cons a t => rfl
  have hune : (req.filter (fun name => (lookupScenario name).isNone)).isEmpty = false := by
    cases hu : req.filter (fun name => (lookupScenario name).isNone) with
    | nil => rw [hu] at hmem0; cases hmem0
    | cons a t => rfl
  have hsel : select_scenarios req = Except.error
      ("Unknown scenario(s): "
        ++ commaJoin (req.filter (fun name => (lookupScenario name).isNone))) := by
    simp [select_scenarios, hemp, hune]
  refine ⟨_, hsel, ?_, ?_⟩
  · intro n hn habs
    refine strContains_append_left _ (strContains_commaJoin ?_)
    exact List.mem_filter.mpr ⟨hn, by simp [habs]⟩
  · intro env args hsc
    cases hens : ensure_python_path env args.python_sdk env.sysPath with
    | error e =>
        refine ⟨?_, ⟨e, ?_⟩, ?_⟩
        · intro ev hev
          simp [main, hens] at hev
        · simp [main, hens]
        · intro sp hsp
          cases hsp
    | ok sp =>
        have hm : main env args =
            ([Event.sysPathSet sp], Except.error
              ("Unknown scenario(s): "
                ++ commaJoin (req.filter (fun name => (lookupScenario name).isNone)))) := by
          simp [main, hens, hsc, hsel]
        refine ⟨?_, ⟨_, by rw [hm]⟩, ?_⟩
        · intro ev hev
          rw [hm] at hev
          simp at hev
          rw [hev]
          rfl
        · intro sp2 _
          rw [hm]

/-- Witness for C3 at the concrete request list nope, thread_basic. -/
theorem selector_unknown_aborts_witness :
    ∃ msg, select_scenarios ["nope", "thread_basic"] = Except.error msg ∧
      (∀ n ∈ ["nope", "thread_basic"], lookupScenario n = none → strContains msg n) ∧
      (∀ env : Env, ∀ args : Args, args.scenarios = ["nope", "thread_basic"] →
        (∀ ev ∈ (main env args).1, ev.isCall = false) ∧
        (∃ e, (main env args).2 = Except.error e) ∧
        (∀ sp, ensure_python_path env args.python_sdk env.sysPath = Except.ok sp →
          (main env args).2 = Except.error msg)) :=
  selector_unknown_aborts _ (by decide)

/-! Helper lemmas about the abstract filesystem model. -/

lemma mem_insertDir_self (fs : List PyPath) (d : PyPath) : d ∈ insertDir fs d := by
  unfold insertDir
  split
  · assumption
  · simp

lemma mem_insertDir_of_mem {fs : List PyPath} {x : PyPath} (d : PyPath) (h : x ∈ fs) :
    x ∈ insertDir fs d := by
  unfold insertDir
  split
  · exact h
  · simp [h]

lemma mem_foldl_insertDir_of_mem {x : PyPath} :
    ∀ (l : List PyPath) (fs : List PyPath), x ∈ fs → x ∈ l.foldl insertDir fs := by
  intro l
  induction l with
  | nil => intro fs h; exact h
  | cons a t ih => intro fs h; exact ih _ (mem_insertDir_of_mem a h)

lemma mem_foldl_insertDir_of_mem_list {x : PyPath} :
    ∀ (l : List PyPath) (fs : List PyPath), x ∈ l → x ∈ l.foldl insertDir fs := by
  intro l
  induction l with
  | nil => intro fs h; cases h
  | cons a t ih =>
      intro fs h
      cases h with
      | head => exact mem_foldl_insertDir_of_mem t _ (mem_insertDir_self fs x)
      | tail _ hmem => exact ih _ hmem

lemma foldl_insertDir_of_all_mem :
    ∀ (l : List PyPath) (fs : List PyPath), (∀ x ∈ l, x ∈ fs) → l.foldl insertDir fs = fs := by
  intro l
  induction l with
  | nil => intro fs _; rfl
  | cons a t ih =>
      intro fs h
      have ha : insertDir fs a = fs := by
        unfold insertDir
        simp [h a (List.mem_cons_self a t)]
      rw [List.foldl_cons, ha]
      exact ih fs (fun x hx => h x (List.mem_cons_of_mem a hx))

lemma self_mem_dirAncestors (p : PyPath) : p ∈ dirAncestors p := by
  refine List.mem_map.mpr ⟨p.length, List.mem_range.mpr (Nat.lt_succ_self _), List.take_length p⟩

lemma mem_mkdirp_of_mem_ancestors {q p : PyPath} (fs : List PyPath) (h : q ∈ dirAncestors p) :
    q ∈ mkdirp fs p :=
  mem_foldl_insertDir_of_mem_list _ fs h

lemma mem_mkdirp_of_mem {x : PyPath} (p : PyPath) {fs : List PyPath} (h : x ∈ fs) :
    x ∈ mkdirp fs p :=
  mem_foldl_insertDir_of_mem _ fs h

lemma mkdirp_of_all_mem {p : PyPath} {fs : List PyPath}
    (h : ∀ q ∈ dirAncestors p, q ∈ fs) : mkdirp fs p = fs :=
  foldl_insertDir_of_all_mem _ fs h

lemma dropLast_append_singleton {α : Type} (l : List α) (a : α) : (l ++ [a]).dropLast = l := by
  simp

lemma run_scenario_trace_of_resolved (env : Env) (s : Scenario) (dir : PyPath)
    (cx : Option PyPath) (himp : env.importModule s.module = Except.ok ())
    (hattr : env.hasAttr s.module s.function = true) :
    (run_scenario env s dir cx).1 =
      [Event.mkdir dir,
       Event.mkdir dir,
       Event.printRunning s.name (dir ++ [s.name ++ ".jsonl"]),
       Event.call s.module s.function (dir ++ [s.name ++ ".jsonl"]) cx] := by
  unfold run_scenario
  rw [himp]
  simp only [hattr, if_true, dropLast_append_singleton]
  cases env.callHandler s.module s.function (dir ++ [s.name ++ ".jsonl"]) cx <;> rfl

/-- Claim C4: when the module imports and the entry point resolves, the
runner performs exactly one handler invocation, whose output-path keyword is
the computed path and whose codex_path keyword equals the callers override
argument (present exactly when one was supplied). -/
theorem runner_single_invocation (env : Env) (s : Scenario) (dir : PyPath)
    (cx : Option PyPath) (himp : env.importModule s.module = Except.ok ())
    (hattr : env.hasAttr s.module s.function = true) :
    (run_scenario env s dir cx).1.filter Event.isCall =
      [Event.call s.module s.function (dir ++ [s.name ++ ".jsonl"]) cx] := by
  rw [run_scenario_trace_of_resolved env s dir cx himp hattr]
  rfl

/-- Witness for C4 at a concrete environment, scenario, directory, and an
omitted override. -/
theorem runner_single_invocation_witness :
    (run_scenario envAllOk scenario0 ["out"] none).1.filter Event.isCall =
      [Event.call scenario0.module scenario0.function
        (["out"] ++ [scenario0.name ++ ".jsonl"]) none] :=
  runner_single_invocation envAllOk scenario0 ["out"] none rfl rfl

/-- Claim C5: when the module imports and the entry point resolves, every
invocation in the trace targets exactly the path dir/name.jsonl (and one
such invocation occurs); the destination directory and all its ancestors
exist after the runner applies its directory creations to any starting
filesystem, and when they already exist the filesystem is left unchanged
(mkdir is modelled as total, so no error is possible). -/
theorem runner_output_path_and_mkdir (env : Env) (s : Scenario) (dir : PyPath)
    (cx : Option PyPath) (himp : env.importModule s.module = Except.ok ())
    (hattr : env.hasAttr s.module s.function = true) :
    (∀ m f p k, Event.call m f p k ∈ (run_scenario env s dir cx).1 →
        p = dir ++ [s.name ++ ".jsonl"]) ∧
    (∃ k, Event.call s.module s.function (dir ++ [s.name ++ ".jsonl"]) k
        ∈ (run_scenario env s dir cx).1) ∧
    (∀ fs, ∀ q ∈ dirAncestors dir, q ∈ applyTrace fs (run_scenario env s dir cx).1) ∧
    (∀ fs, (∀ q ∈ dirAncestors dir, q ∈ fs) →
        applyTrace fs (run_scenario env s dir cx).1 = fs) := by
  have htr := run_scenario_trace_of_resolved env s dir cx himp hattr
  have happ : ∀ fs, applyTrace fs (run_scenario env s dir cx).1 = mkdirp (mkdirp fs dir) dir := by
    intro fs
    rw [htr]
    rfl
  refine ⟨?_, ?_, ?_, ?_⟩
  · intro m f p k hmem
    rw [htr] at hmem
    simp at hmem
    rw [hmem.2.2.1]
  · exact ⟨cx, by rw [htr]; simp⟩
  · intro fs q hq
    rw [happ fs]
    exact mem_mkdirp_of_mem dir (mem_mkdirp_of_mem_ancestors fs hq)
  · intro fs hall
    rw [happ fs, mkdirp_of_all_mem hall, mkdirp_of_all_mem hall]

/-- Witness for C5 at a concrete environment, scenario and directory. -/
theorem runner_output_path_and_mkdir_witness :
    (∀ m f p k, Event.call m f p k ∈ (run_scenario envAllOk scenario0 ["out"] none).1 →
        p = ["out"] ++ [scenario0.name ++ ".jsonl"]) ∧
    (∃ k, Event.call scenario0.module scenario0.function
        (["out"] ++ [scenario0.name ++ ".jsonl"]) k
        ∈ (run_scenario envAllOk scenario0 ["out"] none).1) ∧
    (∀ fs, ∀ q ∈ dirAncestors ["out"],
        q ∈ applyTrace fs (run_scenario envAllOk scenario0 ["out"] none).1) ∧
    (∀ fs, (∀ q ∈ dirAncestors ["out"], q ∈ fs) →
        applyTrace fs (run_scenario envAllOk scenario0 ["out"] none).1 = fs) :=
  runner_output_path_and_mkdir envAllOk scenario0 ["out"] none rfl rfl

/-- Claim C7: when the module imports but lacks the named entry point, the
runner raises an error whose message contains both the scenario name and
the missing function identifier, performs no effects, and running any
scenario list starting with this scenario aborts immediately with that
error, running nothing. -/
theorem runner_missing_entry_point (env : Env) (s : Scenario) (dir : PyPath)
    (cx : Option PyPath) (himp : env.importModule s.module = Except.ok ())
    (hattr : env.hasAttr s.module s.function = false) :
    run_scenario env s dir cx =
      ([], Except.error ("Scenario " ++ s.name ++ " expected function "
        ++ s.function ++ " in module " ++ s.module)) ∧
    strContains ("Scenario " ++ s.name ++ " expected function "
        ++ s.function ++ " in module " ++ s.module) s.name ∧
    strContains ("Scenario " ++ s.name ++ " expected function "
        ++ s.function ++ " in module " ++ s.module) s.function ∧
    (∀ l2, runList env dir cx (s :: l2) =
      ([], Except.error ("Scenario " ++ s.name ++ " expected function "
        ++ s.function ++ " in module " ++ s.module))) := by
  have hrun : run_scenario env s dir cx =
      ([], Except.error ("Scenario " ++ s.name ++ " expected function "
        ++ s.function ++ " in module " ++ s.module)) := by
    unfold run_scenario
    rw [himp]
    simp [hattr]
  refine ⟨hrun, ?_, ?_, ?_⟩
  · exact ⟨"Scenario ", " expected function " ++ s.function ++ " in module " ++ s.module,
      by simp [String.append_assoc]⟩
  · exact ⟨"Scenario " ++ s.name ++ " expected function ", " in module " ++ s.module,
      by simp [String.append_assoc]⟩
  · intro l2
    unfold runList
    rw [hrun]

/-- Witness for C7 at a concrete environment lacking the entry point. -/
theorem runner_missing_entry_point_witness :
    run_scenario envNoAttr scenario0 ["out"] none =
      ([], Except.error ("Scenario " ++ scenario0.name ++ " expected function "
        ++ scenario0.function ++ " in module " ++ scenario0.module)) ∧
    strContains ("Scenario " ++ scenario0.name ++ " expected function "
        ++ scenario0.function ++ " in module " ++ scenario0.module) scenario0.name ∧
    strContains ("Scenario " ++ scenario0.name ++ " expected function "
        ++ scenario0.function ++ " in module " ++ scenario0.module) scenario0.function ∧
    (∀ l2, runList envNoAttr ["out"] none (scenario0 :: l2) =
      ([], Except.error ("Scenario " ++ scenario0.name ++ " expected function "
        ++ scenario0.function ++ " in module " ++ scenario0.module))) :=
  runner_missing_entry_point envNoAttr scenario0 ["out"] none rfl rfl

/-- Claim C10: when the module fails to load, or loads but lacks the entry
point, the runner performs no effect at all: its trace is empty, it reports
an error, and the abstract filesystem is unchanged (no directory created,
no output path touched). -/
theorem runner_state_unchanged_on_load_error (env : Env) (s : Scenario) (dir : PyPath)
    (cx : Option PyPath)
    (h : (∃ e, env.importModule s.module = Except.error e) ∨
         (env.importModule s.module = Except.ok () ∧
          env.hasAttr s.module s.function = false)) :
    (run_scenario env s dir cx).1 = [] ∧
    (∃ e, (run_scenario env s dir cx).2 = Except.error e) ∧
    (∀ fs, applyTrace fs (run_scenario env s dir cx).1 = fs) := by
  have hrun : ∃ e, run_scenario env s dir cx = ([], Except.error e) := by
    cases h with
    | inl himp =>
        obtain ⟨e, he⟩ := himp
        refine ⟨e, ?_⟩
        unfold run_scenario
        rw [he]
    | inr hres =>
        refine ⟨"Scenario " ++ s.name ++ " expected function "
          ++ s.function ++ " in module " ++ s.module, ?_⟩
        unfold run_scenario
        rw [hres.1]
        simp [hres.2]
  obtain ⟨e, he⟩ := hrun
  rw [he]
  exact ⟨rfl, ⟨e, rfl⟩, fun fs => rfl⟩

/-- Witness for C10 at a concrete environment whose import fails. -/
theorem runner_state_unchanged_on_load_error_witness :
    (run_scenario envImportFail scenario0 ["out"] none).1 = [] ∧
    (∃ e, (run_scenario envImportFail scenario0 ["out"] none).2 = Except.error e) ∧
    (∀ fs, applyTrace fs (run_scenario envImportFail scenario0 ["out"] none).1 = fs) :=
  runner_state_unchanged_on_load_error envImportFail scenario0 ["out"] none
    (Or.inl ⟨"No module named " ++ scenario0.module, rfl⟩)

/-! Helper lemmas about the driver loop. -/

lemma scenarioOk_iff {env : Env} {s : Scenario} {out : PyPath} {cx : Option PyPath} :
    scenarioOk env s out cx = true ↔ (run_scenario env s out cx).2 = Except.ok () := by
  unfold scenarioOk exceptOk
  cases h : (run_scenario env s out cx).2 with
  | ok u => cases u; simp
  | error e => simp

lemma scenarioOk_false {env : Env} {s : Scenario} {out : PyPath} {cx : Option PyPath}
    (h : scenarioOk env s out cx = false) :
    ∃ e, (run_scenario env s out cx).2 = Except.error e := by
  unfold scenarioOk exceptOk at h
  cases hr : (run_scenario env s out cx).2 with
  | ok u => rw [hr] at h; cases h
  | error e => exact ⟨e, rfl⟩

lemma runList_cons (env : Env) (out : PyPath) (cx : Option PyPath) (s : Scenario)
    (rest : List Scenario) :
    runList env out cx (s :: rest) =
      match (run_scenario env s out cx).2 with
      | Except.error e => ((run_scenario env s out cx).1, Except.error e)
      | Except.ok _ =>
          ((run_scenario env s out cx).1 ++ (runList env out cx rest).1,
           (runList env out cx rest).2) :=
  rfl

lemma runList_cons_ok {env : Env} {out : PyPath} {cx : Option PyPath} {s : Scenario}
    (rest : List Scenario) (h : (run_scenario env s out cx).2 = Except.ok ()) :
    runList env out cx (s :: rest) =
      ((run_scenario env s out cx).1 ++ (runList env out cx rest).1,
       (runList env out cx rest).2) := by
  rw [runList_cons, h]

lemma runList_cons_error {env : Env} {out : PyPath} {cx : Option PyPath} {s : Scenario}
    {e : String} (rest : List Scenario) (h : (run_scenario env s out cx).2 = Except.error e) :
    runList env out cx (s :: rest) = ((run_scenario env s out cx).1, Except.error e) := by
  rw [runList_cons, h]

lemma runList_all_ok (env : Env) (out : PyPath) (cx : Option PyPath) :
    ∀ l : List Scenario, (∀ s ∈ l, scenarioOk env s out cx = true) →
      runList env out cx l =
        ((List.map (fun s => (run_scenario env s out cx).1) l).flatten, Except.ok ()) := by
  intro l
  induction l with
  | nil => intro _; rfl
  | cons s t ih =>
      intro h
      have hs := scenarioOk_iff.mp (h s (List.mem_cons_self s t))
      rw [runList_cons_ok t hs, ih (fun x hx => h x (List.mem_cons_of_mem s hx))]
      simp

lemma runList_first_fail (env : Env) (out : PyPath) (cx : Option PyPath) (s : Scenario)
    (e : String) (hs : (run_scenario env s out cx).2 = Except.error e) :
    ∀ l1 : List Scenario, (∀ x ∈ l1, scenarioOk env x out cx = true) → ∀ l2,
      runList env out cx (l1 ++ s :: l2) =
        ((List.map (fun x => (run_scenario env x out cx).1) l1).flatten
          ++ (run_scenario env s out cx).1, Except.error e) := by
  intro l1
  induction l1 with
  | nil =>
      intro _ l2
      rw [List.nil_append, runList_cons_error l2 hs]
      simp
  | cons a t ih =>
      intro h l2
      have ha := scenarioOk_iff.mp (h a (List.mem_cons_self a t))
      rw [List.cons_append, runList_cons_ok (t ++ s :: l2) ha,
        ih (fun x hx => h x (List.mem_cons_of_mem a hx)) l2]
      simp

lemma printCompleted_not_mem_run_trace (env : Env) (s : Scenario) (out : PyPath)
    (cx : Option PyPath) : Event.printCompleted ∉ (run_scenario env s out cx).1 := by
  cases himp : env.importModule s.module with
  | error e =>
      unfold run_scenario
      rw [himp]
      simp
  | ok u =>
      cases u
      cases hattr : env.hasAttr s.module s.function with
      | true =>
          rw [run_scenario_trace_of_resolved env s out cx himp hattr]
          simp
      | false =>
          unfold run_scenario
          rw [himp]
          simp [hattr]

lemma main_eq_of_ok (env : Env) (args : Args) (sp : List PyPath) (scns : List Scenario)
    (hsdk : ensure_python_path env args.python_sdk env.sysPath = Except.ok sp)
    (hsel : select_scenarios args.scenarios = Except.ok scns) :
    main env args =
      match (runList env (env.resolve args.output) args.codex_path scns).2 with
      | Except.error e =>
          (Event.sysPathSet sp :: (runList env (env.resolve args.output) args.codex_path scns).1,
           Except.error e)
      | Except.ok _ =>
          (Event.sysPathSet sp ::
            (runList env (env.resolve args.output) args.codex_path scns).1
              ++ [Event.printCompleted],
           Except.ok ()) := by
  unfold main
  rw [hsdk, hsel]

lemma exists_first_fail {α : Type} (p : α → Bool) :
    ∀ l : List α, (¬ ∀ x ∈ l, p x = true) →
      ∃ l1 s l2, l = l1 ++ s :: l2 ∧ (∀ x ∈ l1, p x = true) ∧ p s = false := by
  intro l
  induction l with
  | nil => intro h; exact absurd (by intro x hx; cases hx) h
  | cons a t ih =>
      intro h
      cases hpa : p a with
      | false =>
          exact ⟨[], a, t, rfl, (by intro x hx; cases hx), hpa⟩
      | true =>
          have ht : ¬ ∀ x ∈ t, p x = true := by
            intro hall
            refine h ?_
            intro x hx
            cases hx with
            | head => exact hpa
            | tail _ hm => exact hall x hm
          obtain ⟨l1, s, l2, hdec, h1, hs⟩ := ih ht
          refine ⟨a :: l1, s, l2, by rw [hdec]; rfl, ?_, hs⟩
          intro x hx
          cases hx with
          | head => exact hpa
          | tail _ hm => exact h1 x hm

/-- Claim C6: under a valid SDK path and a successful selection, the driver
runs the selected scenarios strictly in order: when every run succeeds the
trace is the concatenation of the per-scenario traces in selection order
followed by the completion message and the result is success; when the
first failure occurs at some position, the trace stops with that scenario
(nothing after it runs) and the error propagates; and the completion
message is printed exactly when every selected scenario ran without
raising. -/
theorem driver_sequencing (env : Env) (args : Args) (scns : List Scenario) (sp : List PyPath)
    (hsdk : ensure_python_path env args.python_sdk env.sysPath = Except.ok sp)
    (hsel : select_scenarios args.scenarios = Except.ok scns) :
    ((∀ s ∈ scns, scenarioOk env s (env.resolve args.output) args.codex_path = true) →
       main env args =
         (Event.sysPathSet sp ::
           ((List.map (fun s => (run_scenario env s (env.resolve args.output)
              args.codex_path).1) scns).flatten ++ [Event.printCompleted]),
          Except.ok ())) ∧
    (∀ l1 s l2 e, scns = l1 ++ s :: l2 →
       (∀ x ∈ l1, scenarioOk env x (env.resolve args.output) args.codex_path = true) →
       (run_scenario env s (env.resolve args.output) args.codex_path).2 = Except.error e →
       main env args =
         (Event.sysPathSet sp ::
           ((List.map (fun x => (run_scenario env x (env.resolve args.output)
              args.codex_path).1) l1).flatten
            ++ (run_scenario env s (env.resolve args.output) args.codex_path).1),
          Except.error e)) ∧
    (Event.printCompleted ∈ (main env args).1 ↔
       ∀ s ∈ scns, scenarioOk env s (env.resolve args.output) args.codex_path = true) := by
  have hmain := main_eq_of_ok env args sp scns hsdk hsel
  have hok : (∀ s ∈ scns, scenarioOk env s (env.resolve args.output) args.codex_path = true) →
      main env args =
        (Event.sysPathSet sp ::
          ((List.map (fun s => (run_scenario env s (env.resolve args.output)
             args.codex_path).1) scns).flatten ++ [Event.printCompleted]),
         Except.ok ()) := by
    intro hall
    rw [hmain, runList_all_ok env (env.resolve args.output) args.codex_path scns hall]
    rfl
  have hfail : ∀ l1 s l2 e, scns = l1 ++ s :: l2 →
      (∀ x ∈ l1, scenarioOk env x (env.resolve args.output) args.codex_path = true) →
      (run_scenario env s (env.resolve args.output) args.codex_path).2 = Except.error e →
      main env args =
        (Event.sysPathSet sp ::
          ((List.map (fun x => (run_scenario env x (env.resolve args.output)
             args.codex_path).1) l1).flatten
           ++ (run_scenario env s (env.resolve args.output) args.codex_path).1),
         Except.error e) := by
    intro l1 s l2 e hdec h1 hserr
    rw [hmain, hdec, runList_first_fail env (env.resolve args.output) args.codex_path
      s e hserr l1 h1 l2]
  refine ⟨hok, hfail, ?_, ?_⟩
  · intro hmem
    by_contra hnall
    obtain ⟨l1, sbad, l2, hdec, h1, hbadf⟩ :=
      exists_first_fail (fun x => scenarioOk env x (env.resolve args.output) args.codex_path)
        scns hnall
    obtain ⟨e, he⟩ := scenarioOk_false hbadf
    have hm2 := hfail l1 sbad l2 e hdec h1 he
    rw [hm2] at hmem
    simp at hmem
    rcases hmem with hmem | hmem
    · obtain ⟨x, _, hmt⟩ := hmem
      exact printCompleted_not_mem_run_trace env x (env.resolve args.output)
        args.codex_path hmt
    · exact printCompleted_not_mem_run_trace env sbad (env.resolve args.output)
        args.codex_path hmem
  · intro hall
    rw [hok hall]
    simp

/-- Witness for C6 at a concrete all-success environment with the full
registry selected by an empty request. -/
theorem driver_sequencing_witness :
    ((∀ s ∈ SCENARIOS,
        scenarioOk envAllOk s (envAllOk.resolve argsAll.output) argsAll.codex_path = true) →
       main envAllOk argsAll =
         (Event.sysPathSet [["sdk"]] ::
           ((List.map (fun s => (run_scenario envAllOk s (envAllOk.resolve argsAll.output)
              argsAll.codex_path).1) SCENARIOS).flatten ++ [Event.printCompleted]),
          Except.ok ())) ∧
    (∀ l1 s l2 e, SCENARIOS = l1 ++ s :: l2 →
       (∀ x ∈ l1,
          scenarioOk envAllOk x (envAllOk.resolve argsAll.output) argsAll.codex_path = true) →
       (run_scenario envAllOk s (envAllOk.resolve argsAll.output)
          argsAll.codex_path).2 = Except.error e →
       main envAllOk argsAll =
         (Event.sysPathSet [["sdk"]] ::
           ((List.map (fun x => (run_scenario envAllOk x (envAllOk.resolve argsAll.output)
              argsAll.codex_path).1) l1).flatten
            ++ (run_scenario envAllOk s (envAllOk.resolve argsAll.output)
                 argsAll.codex_path).1),
          Except.error e)) ∧
    (Event.printCompleted ∈ (main envAllOk argsAll).1 ↔
       ∀ s ∈ SCENARIOS,
         scenarioOk envAllOk s (envAllOk.resolve argsAll.output) argsAll.codex_path = true) :=
  driver_sequencing envAllOk argsAll SCENARIOS [["sdk"]] rfl rfl

lemma main_sdk_none (env : Env) (args : Args) (h : args.python_sdk = none) :
    main env args = ([], Except.error
      "Path to the Python SDK is required. Pass --python-sdk or set CODEX_PYTHON_SDK_PATH.") := by
  simp [main, ensure_python_path, h]

lemma main_sdk_not_exists (env : Env) (args : Args) (p : PyPath)
    (hp : args.python_sdk = some p) (hex : env.pathExists p = false) :
    main env args =
      ([], Except.error ("Python SDK path does not exist: " ++ pathToString p)) := by
  simp [main, ensure_python_path, hp, hex]

/-- Claim C8: the driver aborts with the missing-SDK-path error, touching
nothing, when the SDK path is absent (flag omitted, variable unset) or does
not exist on disk; otherwise ensure_python_path prepends the resolved SDK
location to the search path, and main records that updated search path
before any other event. -/
theorem driver_sdk_path_handling (env : Env) (args : Args) :
    (args.python_sdk = none →
       main env args = ([], Except.error
         "Path to the Python SDK is required. Pass --python-sdk or set CODEX_PYTHON_SDK_PATH.")) ∧
    (∀ p, args.python_sdk = some p → env.pathExists p = false →
       main env args =
         ([], Except.error ("Python SDK path does not exist: " ++ pathToString p))) ∧
    (∀ p, args.python_sdk = some p → env.pathExists p = true →
       ensure_python_path env args.python_sdk env.sysPath =
         Except.ok (env.resolve p :: env.sysPath) ∧
       ∃ rest, (main env args).1 = Event.sysPathSet (env.resolve p :: env.sysPath) :: rest) := by
  refine ⟨?_, ?_, ?_⟩
  · intro h
    exact main_sdk_none env args h
  · intro p hp hex
    exact main_sdk_not_exists env args p hp hex
  · intro p hp hex
    have hens : ensure_python_path env args.python_sdk env.sysPath =
        Except.ok (env.resolve p :: env.sysPath) := by
      simp [ensure_python_path, hp, hex]
    refine ⟨hens, ?_⟩
    cases hsel : select_scenarios args.scenarios with
    | error e =>
        exact ⟨[], by simp [main, hens, hsel]⟩
    | ok scns =>
        cases hr : (runList env (env.resolve args.output) args.codex_path scns).2 with
        | error e2 =>
            refine ⟨(runList env (env.resolve args.output) args.codex_path scns).1, ?_⟩
            simp [main, hens, hsel, hr]
        | ok u =>
            cases u
            refine ⟨(runList env (env.resolve args.output) args.codex_path scns).1
              ++ [Event.printCompleted], ?_⟩
            simp [main, hens, hsel, hr]

/-- Witness for C8: the nonexistent-path case at a concrete environment. -/
theorem driver_sdk_path_handling_witness :
    main envNoPath argsAll =
      ([], Except.error ("Python SDK path does not exist: " ++ pathToString ["sdk"])) :=
  (driver_sdk_path_handling envNoPath argsAll).2.1 ["sdk"] rfl rfl

lemma select_scenarios_error_of_unknown (req : List String)
    (h : ∃ n ∈ req, lookupScenario n = none) :
    select_scenarios req = Except.error
      ("Unknown scenario(s): "
        ++ commaJoin (req.filter (fun name => (lookupScenario name).isNone))) := by
  obtain ⟨n0, hn0, habs0⟩ := h
  have hmem0 : n0 ∈ req.filter (fun name => (lookupScenario name).isNone) :=
    List.mem_filter.mpr ⟨hn0, by simp [habs0]⟩
  have hemp : req.isEmpty = false := by
    cases req with
    | nil => cases hn0
    | cons a t => rfl
  have hune : (req.filter (fun name => (lookupScenario name).isNone)).isEmpty = false := by
    cases hu : req.filter (fun name => (lookupScenario name).isNone) with
    | nil => rw [hu] at hmem0; cases hmem0
    | cons a t => rfl
  simp [select_scenarios, hemp, hune]

lemma ne_of_data_take_one {s t : String} (h : s.data.take 1 ≠ t.data.take 1) : s ≠ t :=
  fun he => h (by rw [he])

/-- Claim C9: when the SDK path is missing or nonexistent and the request
also names unknown scenarios, main fails with the SDK-path error (its trace
empty), which is a different message from the unknown-scenario error the
selector would have raised: SDK validation strictly precedes selection. -/
theorem driver_sdk_error_precedes_selection (env : Env) (args : Args)
    (hbad : args.python_sdk = none ∨
      ∃ p, args.python_sdk = some p ∧ env.pathExists p = false)
    (hunk : ∃ n ∈ args.scenarios, lookupScenario n = none) :
    ∃ e, main env args = ([], Except.error e) ∧
      ∃ msg, select_scenarios args.scenarios = Except.error msg ∧ e ≠ msg := by
  have hselerr := select_scenarios_error_of_unknown args.scenarios hunk
  have hmsg1 : ("Unknown scenario(s): "
      ++ commaJoin (args.scenarios.filter (fun name => (lookupScenario name).isNone))).data.take 1
      = ['U'] := by
    rw [String.data_append, List.take_append_of_le_length (by decide)]
    decide
  cases hbad with
  | inl h =>
      refine ⟨_, main_sdk_none env args h, _, hselerr, ?_⟩
      refine ne_of_data_take_one ?_
      rw [hmsg1]
      decide
  | inr h =>
      obtain ⟨p, hp, hex⟩ := h
      refine ⟨_, main_sdk_not_exists env args p hp hex, _, hselerr, ?_⟩
      refine ne_of_data_take_one ?_
      rw [hmsg1, String.data_append, List.take_append_of_le_length (by decide)]
      decide

/-- Witness for C9 at a concrete environment with a nonexistent SDK path
and an unknown requested scenario name. -/
theorem driver_sdk_error_precedes_selection_witness :
    ∃ e, main envNoPath argsBad = ([], Except.error e) ∧
      ∃ msg, select_scenarios argsBad.scenarios = Except.error msg ∧ e ≠ msg :=
  driver_sdk_error_precedes_selection envNoPath argsBad
    (Or.inr ⟨["sdk"], rfl, rfl⟩) (by decide)

end Harvest
